import Mathlib

/-
  Verification development for the GST reconciliation engine in
  `reconciliation_logic.py` (functions `normalize_doc`, `validate_columns`,
  `process_reco`).

  Shallow-embedding conventions:
  * DataFrame rows become Lean structures; monetary columns are rationals
    (the source runs `pd.to_numeric(..., errors="coerce").fillna(0)` once at
    ingestion, so the engine sees numbers, with absent or unparseable
    entries already coerced to 0).
  * Column names are modelled explicitly where they decide control flow.
    Pandas `merge(..., suffixes=("_2B", "_PUR"))` appends a suffix only to
    column names that occur in BOTH frames outside the join keys: of the
    monetary columns only "IGST/CGST/SGST Amount" overlap, so the merged
    frame carries "IGST Amount_2B" ... "SGST Amount_PUR" but keeps the two
    total-value columns under their distinct, unsuffixed names
    "Taxable Value" and "Taxable Amount".  `mergedColumns` below computes
    that label set, and `diffCalc` replays the column reads and assignments
    of the difference-calculation block (source lines 146-149) against it:
    the guarded fill loop (lines 139-141) skips the nonexistent suffixed
    total names and adds no columns, and the unguarded read of
    "Taxable Amount_PUR" at line 149 raises `KeyError`.  Every run that
    passes schema validation therefore aborts there — before the
    classification block (151-166), the fuzzy-matching pass (171-250) and
    the GSTIN-mismatch pass (255-269).  Those blocks are dead code and are
    not modelled; no claim below relies on their behavior.
  * The stages that DO execute are modelled in full: validation,
    document-number normalization, aggregation
    (`groupby(..., as_index=False)` sorts group keys ascending, aggregates
    each group in input order — monetary sums, first-observed descriptive
    fields — and keeps only the grouped columns), and the outer join
    (one row per key, keys sorted lexicographically, with each side's
    aggregated row attached where present and `NaN`/absent otherwise,
    modelled as `Option`).
  * Errors are explicit: `RecoError.schema` is the `ValueError` raised by
    `validate_columns`; `RecoError.keyError` is the pandas `KeyError`
    raised by an out-of-schema column read.
-/

set_option maxRecDepth 100000

namespace Reco

/-- Errors surfaced by the engine: the `ValueError` of `validate_columns`
(table label and the full list of missing columns), and the pandas
`KeyError` raised by reading a column that does not exist. -/
inductive RecoError where
  | schema : String → List String → RecoError
  | keyError : String → RecoError
deriving DecidableEq, Repr

/-- Source `normalize_doc`: upper-case the document number and strip every
character outside `[A-Z0-9]`; missing input is treated as the empty
string. -/
def normalizeDoc (s : String) : String :=
  ((s.toUpper.toList.filter
    (fun c => decide (('A' ≤ c ∧ c ≤ 'Z') ∨ ('0' ≤ c ∧ c ≤ '9'))))).asString

/-- Source `validate_columns`: collect every required column absent from the
table's columns; raise (modelled as `Except.error` carrying the table label
and the full missing list) when any is absent, succeed silently
otherwise. -/
def validateColumns (cols required : List String) (name : String) :
    Except RecoError Unit :=
  let missing := required.filter (fun c => decide (c ∉ cols))
  if missing.isEmpty then .ok () else .error (.schema name missing)

/-- A row of the GSTR-2B (authority-side) input table, after numeric
standardization of the four monetary columns. -/
structure GstRow where
  gstin : String
  docNumber : String
  docDate : String
  supplierName : String
  igst : ℚ
  cgst : ℚ
  sgst : ℚ
  taxable : ℚ
deriving DecidableEq, Inhabited, Repr

/-- A row of the purchase-register (internal-side) input table, after
numeric standardization; `gstin` is the "GSTIN Of Vendor/Customer" column
(renamed to "Supplier GSTIN" before aggregation). -/
structure PurRow where
  gstin : String
  refDoc : String
  fiDoc : String
  taxDesc : String
  vendorName : String
  igst : ℚ
  cgst : ℚ
  sgst : ℚ
  taxable : ℚ
deriving DecidableEq, Inhabited, Repr

/-- The gst frame at the aggregation step: input columns plus the computed
`doc_norm` column (a `groupby.agg` output has exactly these columns). -/
structure GstA where
  gstin : String
  docNorm : String
  docNumber : String
  supplierName : String
  docDate : String
  igst : ℚ
  cgst : ℚ
  sgst : ℚ
  taxable : ℚ
deriving DecidableEq, Inhabited, Repr

/-- The purchase frame at the aggregation step, with `doc_norm`. -/
structure PurA where
  gstin : String
  docNorm : String
  refDoc : String
  fiDoc : String
  taxDesc : String
  vendorName : String
  igst : ℚ
  cgst : ℚ
  sgst : ℚ
  taxable : ℚ
deriving DecidableEq, Inhabited, Repr

/-- Attach the `doc_norm` column to a gst row
(`gst["doc_norm"] = normalize_doc(gst["Document Number"])`). -/
def GstRow.withNorm (r : GstRow) : GstA :=
  { gstin := r.gstin, docNorm := normalizeDoc r.docNumber,
    docNumber := r.docNumber, supplierName := r.supplierName,
    docDate := r.docDate, igst := r.igst, cgst := r.cgst,
    sgst := r.sgst, taxable := r.taxable }

/-- Attach the `doc_norm` column to a purchase row
(`pur["doc_norm"] = normalize_doc(pur["Reference Document No."])`). -/
def PurRow.withNorm (r : PurRow) : PurA :=
  { gstin := r.gstin, docNorm := normalizeDoc r.refDoc,
    refDoc := r.refDoc, fiDoc := r.fiDoc, taxDesc := r.taxDesc,
    vendorName := r.vendorName, igst := r.igst, cgst := r.cgst,
    sgst := r.sgst, taxable := r.taxable }

/-- The aggregation/join key: (Supplier GSTIN, doc_norm). -/
def keyOfG (r : GstA) : String × String := (r.gstin, r.docNorm)

/-- The aggregation/join key on the purchase side. -/
def keyOfP (r : PurA) : String × String := (r.gstin, r.docNorm)

/-- Worker for `dedupF`: drop every element already seen, keeping first
occurrences. -/
def dedupGo {α : Type} [DecidableEq α] : List α → List α → List α
  | _, [] => []
  | seen, x :: xs =>
    if x ∈ seen then dedupGo seen xs else x :: dedupGo (x :: seen) xs

/-- First-occurrence deduplication, as performed by pandas when forming the
distinct group keys. -/
def dedupF {α : Type} [DecidableEq α] (l : List α) : List α := dedupGo [] l

/-- Lexicographic order on the (gstin, doc_norm) key, as pandas sorts group
keys and outer-merge keys. -/
def keyLe (a b : String × String) : Prop :=
  a.1 < b.1 ∨ (a.1 = b.1 ∧ a.2 ≤ b.2)

instance : DecidableRel keyLe := fun a b => by
  unfold keyLe; infer_instance

instance : IsTotal (String × String) keyLe := by
  constructor
  intro a b
  rcases lt_trichotomy a.1 b.1 with h | h | h
  · exact Or.inl (Or.inl h)
  · rcases le_total a.2 b.2 with h2 | h2
    · exact Or.inl (Or.inr ⟨h, h2⟩)
    · exact Or.inr (Or.inr ⟨h.symm, h2⟩)
  · exact Or.inr (Or.inl h)

instance : IsTrans (String × String) keyLe := by
  constructor
  intro a b c hab hbc
  rcases hab with h1 | ⟨h1, h1'⟩
  · rcases hbc with h2 | ⟨h2, _⟩
    · exact Or.inl (h1.trans h2)
    · exact Or.inl (h2 ▸ h1)
  · rcases hbc with h2 | ⟨h2, h2'⟩
    · exact Or.inl (h1 ▸ h2)
    · exact Or.inr ⟨h1.trans h2, h1'.trans h2'⟩

instance : IsAntisymm (String × String) keyLe := by
  constructor
  intro a b hab hba
  rcases hab with h1 | ⟨h1, h1'⟩
  · rcases hba with h2 | ⟨h2, _⟩
    · exact absurd (h1.trans h2) (lt_irrefl _)
    · exact absurd h1 (h2 ▸ lt_irrefl _)
  · rcases hba with h2 | ⟨h2, h2'⟩
    · exact absurd h2 (h1 ▸ lt_irrefl _)
    · exact Prod.ext h1 (le_antisymm h1' h2')

/-- Ascending key sort, as pandas `groupby(sort=True)` / outer merge. -/
def sortKeys (l : List (String × String)) : List (String × String) :=
  List.insertionSort keyLe l

/-- Distinct gst group keys, ascending. -/
def aggKeysG (t : List GstA) : List (String × String) :=
  sortKeys (dedupF (t.map keyOfG))

/-- Aggregate one gst group: descriptive columns take the first row of the
group (input order), monetary columns are summed. -/
def aggGroupG (t : List GstA) (k : String × String) : GstA :=
  let g := t.filter (fun r => keyOfG r == k)
  { gstin := k.1, docNorm := k.2,
    docNumber := ((g.head?).getD default).docNumber,
    supplierName := ((g.head?).getD default).supplierName,
    docDate := ((g.head?).getD default).docDate,
    igst := (g.map GstA.igst).sum,
    cgst := (g.map GstA.cgst).sum,
    sgst := (g.map GstA.sgst).sum,
    taxable := (g.map GstA.taxable).sum }

/-- Source `gst_agg`: one row per (Supplier GSTIN, doc_norm), keys
ascending. -/
def aggGst (t : List GstA) : List GstA :=
  (aggKeysG t).map (aggGroupG t)

/-- Distinct purchase group keys, ascending. -/
def aggKeysP (t : List PurA) : List (String × String) :=
  sortKeys (dedupF (t.map keyOfP))

/-- Aggregate one purchase group. -/
def aggGroupP (t : List PurA) (k : String × String) : PurA :=
  let g := t.filter (fun r => keyOfP r == k)
  { gstin := k.1, docNorm := k.2,
    refDoc := ((g.head?).getD default).refDoc,
    fiDoc := ((g.head?).getD default).fiDoc,
    taxDesc := ((g.head?).getD default).taxDesc,
    vendorName := ((g.head?).getD default).vendorName,
    igst := (g.map PurA.igst).sum,
    cgst := (g.map PurA.cgst).sum,
    sgst := (g.map PurA.sgst).sum,
    taxable := (g.map PurA.taxable).sum }

/-- Source `pur_agg`: one row per (Supplier GSTIN, doc_norm), keys
ascending. -/
def aggPur (t : List PurA) : List PurA :=
  (aggKeysP t).map (aggGroupP t)

/-! ### The column labels of the frames around the merge -/

/-- Columns of `gst_agg` (group keys first, then the agg-dict columns in
order); a `groupby.agg` output has exactly these columns whatever extra
columns the upload carried. -/
def gstAggColumns : List String :=
  ["Supplier GSTIN", "doc_norm", "Document Number", "Supplier Name",
   "Document Date", "IGST Amount", "CGST Amount", "SGST Amount",
   "Taxable Value"]

/-- Columns of `pur_agg` (after the rename of "GSTIN Of Vendor/Customer"
to "Supplier GSTIN"). -/
def purAggColumns : List String :=
  ["Supplier GSTIN", "doc_norm", "Reference Document No.",
   "FI Document Number", "Tax Description", "Vendor/Customer Name",
   "IGST Amount", "CGST Amount", "SGST Amount", "Taxable Amount"]

/-- The join keys of the merge (`on=["Supplier GSTIN", "doc_norm"]`). -/
def mergeOn : List String := ["Supplier GSTIN", "doc_norm"]

/-- Column labels produced by `pd.merge(left, right, on, suffixes,
indicator=True)`: the left frame's columns (suffixed when the name also
occurs in the right frame outside the join keys), then the right frame's
non-key columns (suffixed when the name also occurs in the left frame),
then the `_merge` indicator. -/
def mergeColumns (leftCols rightCols onKeys : List String)
    (ls rs : String) : List String :=
  (leftCols.map
      (fun c => if c ∉ onKeys ∧ c ∈ rightCols then c ++ ls else c)) ++
    ((rightCols.filter (fun c => decide (c ∉ onKeys))).map
      (fun c => if c ∈ leftCols then c ++ rs else c)) ++
    ["_merge"]

/-- The columns of the `merged` frame.  Only the overlapping
"IGST/CGST/SGST Amount" columns receive the "_2B"/"_PUR" suffixes; the
total-value columns keep their distinct unsuffixed names "Taxable Value"
and "Taxable Amount", so the labels "Taxable Value_2B" and
"Taxable Amount_PUR" that the source reads later do not exist.  (The fill
loop at lines 139-141 is guarded by `if col in merged.columns` and
therefore adds no columns either.) -/
def mergedColumns : List String :=
  mergeColumns gstAggColumns purAggColumns mergeOn "_2B" "_PUR"

/-- A pandas column read `df[c]`: succeeds when the label exists, raises
`KeyError(c)` otherwise. -/
def colRead (cols : List String) (c : String) : Except RecoError Unit :=
  if c ∈ cols then .ok () else .error (.keyError c)

/-- A pandas column assignment `df[c] = ...`: adds the label when new. -/
def dfAssign (cols : List String) (c : String) : List String :=
  if c ∈ cols then cols else cols ++ [c]

/-- Source `numeric_cols` (lines 134-137): the column names the fill loop
intends to fill — the suffixed names of all eight monetary columns,
including the two total-value names that the merge does not actually
produce. -/
def numeric_cols : List String :=
  ["IGST Amount_2B", "CGST Amount_2B", "SGST Amount_2B", "Taxable Value_2B",
   "IGST Amount_PUR", "CGST Amount_PUR", "SGST Amount_PUR",
   "Taxable Amount_PUR"]

/-- The guarded fill loop (source lines 139-141): for each intended numeric
column, if the label exists, assign the filled series back to it (an
assignment to an existing label, which adds no column); otherwise skip.
Either way the column set is unchanged, and in particular the loop does
NOT create the missing "Taxable Value_2B" / "Taxable Amount_PUR" labels. -/
def fillNull (cols : List String) : List String :=
  numeric_cols.foldl (fun acc c => if c ∈ acc then dfAssign acc c else acc)
    cols

/-- The difference-calculation block (source lines 146-149), replayed as
the sequence of column reads and assignments it performs, in evaluation
order (Python evaluates the left operand of `-` first).  Lines 146-148
succeed — the suffixed component columns exist — and add the three
component-diff columns; line 149 then reads "Taxable Amount_PUR", which is
not a column of the merged frame. -/
def diffCalc (cols : List String) : Except RecoError (List String) :=
  match colRead cols "IGST Amount_PUR" with
  | .error e => .error e
  | .ok _ =>
  match colRead cols "IGST Amount_2B" with
  | .error e => .error e
  | .ok _ =>
  let c1 := dfAssign cols "IGST Diff"
  match colRead c1 "CGST Amount_PUR" with
  | .error e => .error e
  | .ok _ =>
  match colRead c1 "CGST Amount_2B" with
  | .error e => .error e
  | .ok _ =>
  let c2 := dfAssign c1 "CGST Diff"
  match colRead c2 "SGST Amount_PUR" with
  | .error e => .error e
  | .ok _ =>
  match colRead c2 "SGST Amount_2B" with
  | .error e => .error e
  | .ok _ =>
  let c3 := dfAssign c2 "SGST Diff"
  match colRead c3 "Taxable Amount_PUR" with
  | .error e => .error e
  | .ok _ =>
  match colRead c3 "Taxable Value_2B" with
  | .error e => .error e
  | .ok _ => .ok (dfAssign c3 "Taxable Diff")

/-- A row of the `merged` frame right after the outer join (source lines
123-129): the join key plus each side's aggregated row where present
(`none` models the `NaN` cells of an absent side). -/
structure JRow where
  gstin : String
  docNorm : String
  left : Option GstA
  right : Option PurA
deriving DecidableEq, Inhabited, Repr

/-- Keys of the full outer join: sorted union of both sides' keys. -/
def mergedKeys (ga : List GstA) (pa : List PurA) : List (String × String) :=
  sortKeys (dedupF (ga.map keyOfG ++ pa.map keyOfP))

/-- The outer join (source lines 123-129): one row per key, keys ascending;
each side contributes its unique aggregated row for the key, if any.  (Both
inputs come from aggregation and have pairwise-distinct keys, so `find?`
picks the unique matching row.) -/
def mergeRows (ga : List GstA) (pa : List PurA) : List JRow :=
  (mergedKeys ga pa).map (fun k =>
    { gstin := k.1, docNorm := k.2,
      left := ga.find? (fun r => keyOfG r == k),
      right := pa.find? (fun r => keyOfP r == k) })

/-- Required columns of the 2B file. -/
def gstRequired : List String :=
  ["Supplier GSTIN", "Document Number", "Document Date", "Supplier Name",
   "IGST Amount", "CGST Amount", "SGST Amount", "Taxable Value"]

/-- Required columns of the purchase file. -/
def purRequired : List String :=
  ["GSTIN Of Vendor/Customer", "Reference Document No.", "FI Document Number",
   "Tax Description", "Vendor/Customer Name", "IGST Amount", "CGST Amount",
   "SGST Amount", "Taxable Amount"]

/-- Source `process_reco`: validate both schemas (2B first), then
normalize, aggregate and outer-join — all of which succeed — and then run
the difference calculation, whose read of "Taxable Amount_PUR" raises
`KeyError` on the merged frame's actual columns.  The `.ok` branch of the
final match is unreachable (`diffCalc mergedColumns` always fails), so the
source's continuation past line 149 — classification, fuzzy matching,
GSTIN-mismatch detection — is not modelled; the branch returns the joined
frame only to keep the error path a computed outcome rather than a
hard-coded one. -/
def process_reco (gstCols purCols : List String)
    (gst : List GstRow) (pur : List PurRow)
    (docThreshold taxTolerance gstinMismatchTolerance : ℚ) :
    Except RecoError (List JRow) :=
  match validateColumns gstCols gstRequired "2B File" with
  | .error e => .error e
  | .ok _ =>
  match validateColumns purCols purRequired "Purchase File" with
  | .error e => .error e
  | .ok _ =>
    let ga := aggGst (gst.map GstRow.withNorm)
    let pa := aggPur (pur.map PurRow.withNorm)
    let merged := mergeRows ga pa
    match diffCalc (fillNull mergedColumns) with
    | .error e => .error e
    | .ok _ => .ok merged

/-- The error of a run, if it raised. -/
def errOf {α : Type} (x : Except RecoError α) : Option RecoError :=
  match x with
  | .error e => some e
  | .ok _ => none

/-! ### Concrete input tables used by the evaluations and witnesses -/

/-- Two authority rows with near-identical document numbers, same GSTIN —
the configuration C1's fuzzy-consumption claim is about. -/
def c1gst : List GstRow :=
  [{ gstin := "G", docNumber := "ABCDE1", docDate := "d1", supplierName := "S",
     igst := 0, cgst := 0, sgst := 0, taxable := 100 },
   { gstin := "G", docNumber := "ABCDE2", docDate := "d2", supplierName := "S",
     igst := 0, cgst := 0, sgst := 0, taxable := 100 }]

/-- A single internal row fuzzily similar to both rows of `c1gst`. -/
def c1pur : List PurRow :=
  [{ gstin := "G", refDoc := "ABCDE", fiDoc := "F", taxDesc := "T",
     vendorName := "V", igst := 0, cgst := 0, sgst := 0, taxable := 100 }]

/-- One authority row whose IGST disagrees by 100 with the internal side
while the totals agree within tolerance — C2's scenario. -/
def c2gst : List GstRow :=
  [{ gstin := "G", docNumber := "ABCDE1", docDate := "d1", supplierName := "S",
     igst := 100, cgst := 0, sgst := 0, taxable := 100 }]

/-- The internal counterpart of `c2gst` (IGST 0, total 100). -/
def c2pur : List PurRow :=
  [{ gstin := "G", refDoc := "ABCDE", fiDoc := "F", taxDesc := "T",
     vendorName := "V", igst := 0, cgst := 0, sgst := 0, taxable := 100 }]

/-- Authority row under counterparty "A1", document D1, total 200 — C4's
identifier-mismatch scenario. -/
def c4gst : List GstRow :=
  [{ gstin := "A1", docNumber := "D1", docDate := "d", supplierName := "S",
     igst := 0, cgst := 0, sgst := 0, taxable := 200 }]

/-- Internal row under a different counterparty "B2", same document D1,
total 205. -/
def c4pur : List PurRow :=
  [{ gstin := "B2", refDoc := "D1", fiDoc := "F", taxDesc := "T",
     vendorName := "V", igst := 0, cgst := 0, sgst := 0, taxable := 205 }]

/-- Two authority rows (counterparties "A1" and "C3") sharing document D1 —
C5's repeated-flagging scenario. -/
def c5gst : List GstRow :=
  [{ gstin := "A1", docNumber := "D1", docDate := "d", supplierName := "S",
     igst := 0, cgst := 0, sgst := 0, taxable := 200 },
   { gstin := "C3", docNumber := "D1", docDate := "d", supplierName := "S",
     igst := 0, cgst := 0, sgst := 0, taxable := 201 }]

/-- One internal row (counterparty "B2", document D1, total 205). -/
def c5pur : List PurRow :=
  [{ gstin := "B2", refDoc := "D1", fiDoc := "F", taxDesc := "T",
     vendorName := "V", igst := 0, cgst := 0, sgst := 0, taxable := 205 }]

/-- Authority row of a both-sides pair whose totals agree within the
default tolerance — C6's exact-match scenario. -/
def c6gst : List GstRow :=
  [{ gstin := "G", docNumber := "D", docDate := "d", supplierName := "S",
     igst := 0, cgst := 0, sgst := 0, taxable := 100 }]

/-- Internal row of the C6 pair (total 110, diff exactly the tolerance). -/
def c6pur : List PurRow :=
  [{ gstin := "G", refDoc := "D", fiDoc := "F", taxDesc := "T",
     vendorName := "V", igst := 0, cgst := 0, sgst := 0, taxable := 110 }]

/-- Authority row with an empty document number. -/
def c7gst : List GstRow :=
  [{ gstin := "G", docNumber := "", docDate := "d", supplierName := "S",
     igst := 0, cgst := 0, sgst := 0, taxable := 100 }]

/-- Unrelated internal row, also with an empty document number, same
GSTIN. -/
def c7pur : List PurRow :=
  [{ gstin := "G", refDoc := "", fiDoc := "F", taxDesc := "T",
     vendorName := "V", igst := 0, cgst := 0, sgst := 0, taxable := 100 }]

/-- Two-row authority input for C9. -/
def c9gst : List GstRow :=
  [{ gstin := "A", docNumber := "X", docDate := "d", supplierName := "S",
     igst := 0, cgst := 0, sgst := 0, taxable := 1 },
   { gstin := "B", docNumber := "Y", docDate := "d", supplierName := "S",
     igst := 0, cgst := 0, sgst := 0, taxable := 2 }]

/-- The rows of `c9gst` in the opposite order. -/
def c9gst' : List GstRow :=
  [{ gstin := "B", docNumber := "Y", docDate := "d", supplierName := "S",
     igst := 0, cgst := 0, sgst := 0, taxable := 2 },
   { gstin := "A", docNumber := "X", docDate := "d", supplierName := "S",
     igst := 0, cgst := 0, sgst := 0, taxable := 1 }]

/-- Internal input for C9. -/
def c9pur : List PurRow :=
  [{ gstin := "A", refDoc := "X", fiDoc := "F", taxDesc := "T",
     vendorName := "V", igst := 0, cgst := 0, sgst := 0, taxable := 1 }]

/-- A two-row table with one row per key whose rows are not in ascending
key order ("B" before "A"). -/
def c10t : List GstA :=
  [{ gstin := "B", docNorm := "X", docNumber := "X", supplierName := "S",
     docDate := "d", igst := 1, cgst := 2, sgst := 3, taxable := 4 },
   { gstin := "A", docNorm := "X", docNumber := "X", supplierName := "S",
     docDate := "d", igst := 5, cgst := 6, sgst := 7, taxable := 8 }]

/-- Aggregated-level authority row with the empty normalized key, for the
C7 witness. -/
def c7gRow : GstA :=
  { gstin := "G", docNorm := "", docNumber := "", supplierName := "S",
    docDate := "d", igst := 0, cgst := 0, sgst := 0, taxable := 100 }

/-- Aggregated-level internal row with the empty normalized key. -/
def c7pRow : PurA :=
  { gstin := "G", docNorm := "", refDoc := "", fiDoc := "F",
    taxDesc := "T", vendorName := "V", igst := 0, cgst := 0, sgst := 0,
    taxable := 100 }

/-- One-row aggregated authority table for the C7 witness. -/
def c7ga : List GstA := [c7gRow]

/-- One-row aggregated internal table for the C7 witness. -/
def c7pa : List PurA := [c7pRow]

/-! ### Helper lemmas about first-occurrence deduplication -/

theorem mem_dedupGo {α : Type} [DecidableEq α] (a : α) :
    ∀ (l seen : List α), a ∈ dedupGo seen l ↔ a ∈ l ∧ a ∉ seen
  | [], seen => by simp [dedupGo]
  | x :: xs, seen => by
    by_cases hx : x ∈ seen
    · rw [dedupGo, if_pos hx, mem_dedupGo a xs seen]
      constructor
      · rintro ⟨h1, h2⟩; exact ⟨List.mem_cons_of_mem _ h1, h2⟩
      · rintro ⟨h1, h2⟩
        rcases List.mem_cons.mp h1 with h1 | h1
        · exact absurd (h1 ▸ hx) h2
        · exact ⟨h1, h2⟩
    · rw [dedupGo, if_neg hx]
      by_cases hax : a = x
      · subst hax; simp [hx]
      · rw [List.mem_cons, mem_dedupGo a xs (x :: seen)]
        simp only [List.mem_cons]
        constructor
        · rintro (h | ⟨h1, h2⟩)
          · exact absurd h hax
          · refine ⟨Or.inr h1, fun hc => h2 (Or.inr hc)⟩
        · rintro ⟨h1 | h1, h2⟩
          · exact absurd h1 hax
          · exact Or.inr ⟨h1, fun hc => by
              rcases hc with hc | hc
              · exact hax hc
              · exact h2 hc⟩

theorem mem_dedupF {α : Type} [DecidableEq α] (a : α) (l : List α) :
    a ∈ dedupF l ↔ a ∈ l := by
  rw [dedupF, mem_dedupGo]; simp

theorem nodup_dedupGo {α : Type} [DecidableEq α] :
    ∀ (l seen : List α), (dedupGo seen l).Nodup
  | [], seen => by simp [dedupGo]
  | x :: xs, seen => by
    by_cases hx : x ∈ seen
    · rw [dedupGo, if_pos hx]; exact nodup_dedupGo xs seen
    · rw [dedupGo, if_neg hx]
      refine List.nodup_cons.mpr ⟨fun hc => ?_, nodup_dedupGo xs (x :: seen)⟩
      exact ((mem_dedupGo x xs (x :: seen)).mp hc).2 (List.mem_cons_self x seen)

theorem nodup_dedupF {α : Type} [DecidableEq α] (l : List α) :
    (dedupF l).Nodup := nodup_dedupGo l []

theorem dedupGo_eq_self {α : Type} [DecidableEq α] :
    ∀ (l seen : List α), l.Nodup → (∀ a ∈ l, a ∉ seen) → dedupGo seen l = l
  | [], seen, _, _ => rfl
  | x :: xs, seen, hnd, hdisj => by
    rw [dedupGo, if_neg (hdisj x (List.mem_cons_self x xs))]
    congr 1
    refine dedupGo_eq_self xs (x :: seen) (List.nodup_cons.mp hnd).2 ?_
    intro a ha hc
    rcases List.mem_cons.mp hc with hc | hc
    · exact (List.nodup_cons.mp hnd).1 (hc ▸ ha)
    · exact hdisj a (List.mem_cons_of_mem _ ha) hc

theorem dedupF_eq_self {α : Type} [DecidableEq α] (l : List α)
    (h : l.Nodup) : dedupF l = l :=
  dedupGo_eq_self l [] h (by simp)

/-! ### Helper lemmas about the key sort and the join keys -/

theorem sortKeys_perm (l : List (String × String)) :
    List.Perm (sortKeys l) l :=
  List.perm_insertionSort keyLe l

theorem mem_sortKeys (k : String × String) (l : List (String × String)) :
    k ∈ sortKeys l ↔ k ∈ l :=
  (sortKeys_perm l).mem_iff

theorem find?_isSome_of_mem_key {α β : Type} [BEq β] [LawfulBEq β]
    (f : α → β) (l : List α) (k : β) (h : k ∈ l.map f) :
    (l.find? (fun r => f r == k)).isSome := by
  rw [List.find?_isSome]
  obtain ⟨r, hr, hrk⟩ := List.mem_map.mp h
  exact ⟨r, hr, by simpa using hrk⟩

theorem mem_mergedKeys_iff (ga : List GstA) (pa : List PurA)
    (k : String × String) :
    k ∈ mergedKeys ga pa ↔ k ∈ ga.map keyOfG ∨ k ∈ pa.map keyOfP := by
  rw [mergedKeys, mem_sortKeys, mem_dedupF, List.mem_append]

/-! ### Helper lemmas about validation and the difference calculation -/

theorem validateColumns_error (cols required : List String) (name : String)
    (h : required.filter (fun c => decide (c ∉ cols)) ≠ []) :
    validateColumns cols required name =
      Except.error (RecoError.schema name
        (required.filter (fun c => decide (c ∉ cols)))) := by
  have hc : ¬((required.filter (fun c => decide (c ∉ cols))).isEmpty = true) := by
    intro hc
    exact h (List.isEmpty_iff.mp hc)
  simp only [validateColumns]
  rw [if_neg hc]

theorem validateColumns_ok (cols required : List String) (name : String)
    (h : required.filter (fun c => decide (c ∉ cols)) = []) :
    validateColumns cols required name = Except.ok () := by
  simp only [validateColumns]
  rw [if_pos (List.isEmpty_iff.mpr h)]

theorem diffCalc_raises :
    diffCalc (fillNull mergedColumns) =
      Except.error (RecoError.keyError "Taxable Amount_PUR") := by
  with_unfolding_all rfl

theorem process_reco_raises (gstCols purCols : List String)
    (gst : List GstRow) (pur : List PurRow) (thr tol gtol : ℚ)
    (hg : validateColumns gstCols gstRequired "2B File" = Except.ok ())
    (hp : validateColumns purCols purRequired "Purchase File" =
      Except.ok ()) :
    process_reco gstCols purCols gst pur thr tol gtol =
      Except.error (RecoError.keyError "Taxable Amount_PUR") := by
  unfold process_reco
  rw [hg, hp, diffCalc_raises]

/-! ### C1 -/

/-- C1: code-bug evidence for the fuzzy-consumption claim.  On the claim's
own scenario — two authority rows with near-identical document numbers
(ABCDE1, ABCDE2) under one GSTIN and a single internal candidate row — the
engine never reaches the fuzzy-matching pass at all: the difference
calculation at source line 149 reads the nonexistent merged column
"Taxable Amount_PUR" and the run aborts with that `KeyError` before any
left row is matched, so no internal row is ever consumed, once or twice,
by a fuzzy match, and the claimed consumed-row removal never executes. -/
theorem c1_fuzzy_stage_never_runs :
    errOf (process_reco gstRequired purRequired c1gst c1pur 85 10 20) =
      some (RecoError.keyError "Taxable Amount_PUR") := by
  with_unfolding_all decide

/-! ### C2 -/

/-- C2: code-bug evidence for the fuzzy status-assignment claim.  On the
claim's own scenario — a both-sides pair whose IGST amounts disagree by 100
while the totals agree — the engine aborts with the `KeyError` of source
line 149 before the classification and fuzzy stages, so no row is ever
assigned FuzzyMatch or FuzzyValueMismatch and the claimed status rule is
never applied to any input. -/
theorem c2_fuzzy_status_never_assigned :
    errOf (process_reco gstRequired purRequired c2gst c2pur 85 10 20) =
      some (RecoError.keyError "Taxable Amount_PUR") := by
  with_unfolding_all decide

/-! ### C3 -/

/-- C3: code-bug evidence for the no-Fuzzy-Value-Mismatch claim.  The claim
quantifies over rows of the returned reconciled table, but for EVERY pair
of input tables and every configuration `process_reco` returns no table at
all: runs that fail validation raise the schema error, and runs that pass
validation raise the `KeyError` of source line 149, so the engine never
produces the reconciled table whose rows the claim constrains. -/
theorem c3_no_reconciled_table (gstCols purCols : List String)
    (gst : List GstRow) (pur : List PurRow) (thr tol gtol : ℚ) :
    (process_reco gstCols purCols gst pur thr tol gtol).toOption = none := by
  unfold process_reco
  cases hg : validateColumns gstCols gstRequired "2B File" with
  | error e => rfl
  | ok u =>
    cases hp : validateColumns purCols purRequired "Purchase File" with
    | error e => rfl
    | ok v =>
      rw [diffCalc_raises]
      rfl

/-! ### C4 -/

/-- C4: code-bug evidence for the cross-link claim.  On the claim's own
scenario — same document number D1 under different counterparty
identifiers with totals within the identifier-mismatch tolerance — the
engine aborts with the `KeyError` of source line 149 before the
GSTIN-mismatch detector runs, so no pair is ever reclassified and no
cross-link (which the source would not store even if the detector ran: its
lines 268-269 write only the two status cells) is ever produced. -/
theorem c4_detector_never_runs :
    errOf (process_reco gstRequired purRequired c4gst c4pur 85 10 20) =
      some (RecoError.keyError "Taxable Amount_PUR") := by
  with_unfolding_all decide

/-! ### C5 -/

/-- C5: code-bug evidence for the flagged-at-most-once claim.  On the
claim's own scenario — two authority rows sharing document D1 with one
internal candidate — the engine aborts with the `KeyError` of source line
149 before the GSTIN-mismatch detector runs, so no row is ever
reclassified at all and the claimed exclusion of reclassified rows from
later candidate pools never executes. -/
theorem c5_detector_never_runs :
    errOf (process_reco gstRequired purRequired c5gst c5pur 85 10 20) =
      some (RecoError.keyError "Taxable Amount_PUR") := by
  with_unfolding_all decide

/-! ### C6 -/

/-- C6: code-bug evidence for the exact-classification claim.  The outer
join, which does execute, pairs the scenario's two rows into a single
both-sides row (first conjunct), but the run then aborts with the
`KeyError` of source line 149 before the classification block, so the row
is never assigned ExactMatch, ExactValueMismatch, or any other status
(second conjunct), and the claimed tolerance rule is never evaluated. -/
theorem c6_classification_never_assigned :
    (mergeRows (aggGst (c6gst.map GstRow.withNorm))
        (aggPur (c6pur.map PurRow.withNorm))).map
        (fun r => (r.gstin, r.docNorm, r.left.isSome, r.right.isSome)) =
      [("G", "D", true, true)] ∧
    errOf (process_reco gstRequired purRequired c6gst c6pur 85 10 20) =
      some (RecoError.keyError "Taxable Amount_PUR") := by
  with_unfolding_all decide

/-! ### C7 (amended statement) -/

/-- C7: counterexample.  Both inputs' document numbers normalize to the
empty string, yet the outer join — which executes before the crash —
merges the two unrelated rows into one both-sides row keyed by
(GSTIN, empty string): the empty normalized key IS treated as a successful
key match, refuting the claim that such rows never join. -/
theorem c7_empty_keys_join :
    normalizeDoc "" = "" ∧
    (mergeRows (aggGst (c7gst.map GstRow.withNorm))
        (aggPur (c7pur.map PurRow.withNorm))).map
        (fun r => (r.gstin, r.docNorm, r.left.isSome, r.right.isSome)) =
      [("G", "", true, true)] := by
  with_unfolding_all decide

/-- C7 amended: the empty normalized document number is an ordinary join
key.  Whenever an authority row and an internal row agree on
(Supplier GSTIN, doc_norm) — in particular when both document numbers
normalize to the empty string — the outer join produces a single row
carrying both sides under that key.  (No classification follows in the
source: the run aborts with the `KeyError` of line 149 right after the
join.) -/
theorem c7_amended_empty_key_joins (ga : List GstA) (pa : List PurA)
    (l : GstA) (p : PurA) (hl : l ∈ ga) (hp : p ∈ pa)
    (hk : keyOfG l = keyOfP p) :
    ∃ r ∈ mergeRows ga pa,
      r.left.isSome ∧ r.right.isSome ∧
      r.gstin = l.gstin ∧ r.docNorm = l.docNorm := by
  have hkm : keyOfG l ∈ mergedKeys ga pa :=
    (mem_mergedKeys_iff ga pa (keyOfG l)).mpr
      (Or.inl (List.mem_map_of_mem keyOfG hl))
  refine ⟨{ gstin := (keyOfG l).1, docNorm := (keyOfG l).2,
            left := ga.find? (fun r => keyOfG r == keyOfG l),
            right := pa.find? (fun r => keyOfP r == keyOfG l) },
          ?_, ?_, ?_, rfl, rfl⟩
  · exact List.mem_map_of_mem _ hkm
  · exact find?_isSome_of_mem_key keyOfG ga (keyOfG l)
      (List.mem_map_of_mem keyOfG hl)
  · exact find?_isSome_of_mem_key keyOfP pa (keyOfG l)
      (by rw [hk]; exact List.mem_map_of_mem keyOfP hp)

/-- C7 witness: the amended theorem applied to one empty-keyed row on each
side. -/
theorem c7_amended_witness :
    ∃ r ∈ mergeRows c7ga c7pa,
      r.left.isSome ∧ r.right.isSome ∧
      r.gstin = c7gRow.gstin ∧ r.docNorm = c7gRow.docNorm :=
  c7_amended_empty_key_joins c7ga c7pa c7gRow c7pRow
    (by with_unfolding_all decide) (by with_unfolding_all decide)
    (by with_unfolding_all decide)

/-! ### C8 -/

/-- C8: validation collects EVERY missing required column and fails naming
the full list whenever at least one is absent, succeeding silently when
all are present (first conjunct, for every table and requirement list);
and a validation failure aborts `process_reco` immediately — before any
aggregation, join or matching work — propagating the schema error, the 2B
file being checked first (second and third conjuncts), so no table, not
even a partial one, is produced. -/
theorem c8_validation (gstCols purCols : List String) (gst : List GstRow)
    (pur : List PurRow) (thr tol gtol : ℚ) :
    (∀ cols required : List String, ∀ name : String,
      (required.filter (fun c => decide (c ∉ cols)) ≠ [] →
        validateColumns cols required name =
          Except.error (RecoError.schema name
            (required.filter (fun c => decide (c ∉ cols))))) ∧
      (required.filter (fun c => decide (c ∉ cols)) = [] →
        validateColumns cols required name = Except.ok ())) ∧
    (gstRequired.filter (fun c => decide (c ∉ gstCols)) ≠ [] →
      process_reco gstCols purCols gst pur thr tol gtol =
        Except.error (RecoError.schema "2B File"
          (gstRequired.filter (fun c => decide (c ∉ gstCols))))) ∧
    (gstRequired.filter (fun c => decide (c ∉ gstCols)) = [] →
      purRequired.filter (fun c => decide (c ∉ purCols)) ≠ [] →
      process_reco gstCols purCols gst pur thr tol gtol =
        Except.error (RecoError.schema "Purchase File"
          (purRequired.filter (fun c => decide (c ∉ purCols))))) := by
  refine ⟨?_, ?_, ?_⟩
  · intro cols required name
    exact ⟨validateColumns_error cols required name,
           validateColumns_ok cols required name⟩
  · intro h
    unfold process_reco
    rw [validateColumns_error gstCols gstRequired "2B File" h]
  · intro h1 h2
    unfold process_reco
    rw [validateColumns_ok gstCols gstRequired "2B File" h1,
        validateColumns_error purCols purRequired "Purchase File" h2]

/-- C8 witness: a 2B upload carrying only the GSTIN column aborts the whole
run with a schema error naming all seven other required columns. -/
theorem c8_validation_witness :
    process_reco ["Supplier GSTIN"] [] [] [] 85 10 20 =
      Except.error (RecoError.schema "2B File"
        (gstRequired.filter
          (fun c => decide (c ∉ ["Supplier GSTIN"])))) :=
  (c8_validation ["Supplier GSTIN"] [] [] [] 85 10 20).2.1
    (by with_unfolding_all decide)

/-! ### C9 -/

/-- C9: code-bug evidence for the order-independence claim.  The claim
asserts that permuting either aggregated input leaves the multiset of
(key, matchStatus) classifications unchanged, but the classifier never
runs: on the same two-row authority input in both orders the engine aborts
with the `KeyError` of source line 149, producing no classifications at
all (the outcome is identical for both orders only because it is the same
crash). -/
theorem c9_no_classifications_any_order :
    errOf (process_reco gstRequired purRequired c9gst c9pur 85 10 20) =
      some (RecoError.keyError "Taxable Amount_PUR") ∧
    errOf (process_reco gstRequired purRequired c9gst' c9pur 85 10 20) =
      some (RecoError.keyError "Taxable Amount_PUR") := by
  with_unfolding_all decide

/-! ### C10 (amended statement) -/

theorem filter_keyG_eq_singleton :
    ∀ (t : List GstA), (t.map keyOfG).Nodup → ∀ r ∈ t,
      t.filter (fun x => keyOfG x == keyOfG r) = [r]
  | [], _, r, hr => absurd hr (List.not_mem_nil r)
  | x :: ts, hnd, r, hr => by
    rw [List.map_cons, List.nodup_cons] at hnd
    rcases List.mem_cons.mp hr with hr | hr
    · subst hr
      rw [List.filter_cons, if_pos (by simp)]
      have : ts.filter (fun x => keyOfG x == keyOfG r) = [] := by
        rw [List.filter_eq_nil_iff]
        intro a ha hkey
        exact hnd.1 ((by simpa using hkey : keyOfG a = keyOfG r) ▸
          List.mem_map_of_mem keyOfG ha)
      rw [this]
    · rw [List.filter_cons, if_neg ?_, filter_keyG_eq_singleton ts hnd.2 r hr]
      simp only [beq_iff_eq, decide_eq_true_eq]
      intro hkey
      exact hnd.1 (hkey ▸ List.mem_map_of_mem keyOfG hr)

theorem aggGroupG_self (t : List GstA) (hnd : (t.map keyOfG).Nodup)
    (r : GstA) (hr : r ∈ t) : aggGroupG t (keyOfG r) = r := by
  unfold aggGroupG
  rw [filter_keyG_eq_singleton t hnd r hr]
  cases r
  simp [keyOfG]

/-- C10 amended: aggregating a table that already has one row per
(GSTIN, normalized document number) key returns exactly the same rows, but
re-sorted into ascending key order (pandas `groupby` sorts its group keys):
the result is a permutation of the input, not necessarily the input itself. -/
theorem c10_aggregation_permutes (t : List GstA)
    (hnd : (t.map keyOfG).Nodup) : List.Perm (aggGst t) t := by
  unfold aggGst aggKeysG
  rw [dedupF_eq_self _ hnd]
  have h1 : List.Perm ((sortKeys (t.map keyOfG)).map (aggGroupG t))
      ((t.map keyOfG).map (aggGroupG t)) := (sortKeys_perm _).map _
  have h2 : (t.map keyOfG).map (aggGroupG t) = t := by
    rw [List.map_map]
    have hc : ∀ r ∈ t, (aggGroupG t ∘ keyOfG) r = id r :=
      fun r hr => aggGroupG_self t hnd r hr
    rw [List.map_congr_left hc, List.map_id]
  rw [h2] at h1
  exact h1

/-- C10 witness: the amended theorem applied to the unsorted two-row table
of the counterexample. -/
theorem c10_aggregation_permutes_witness :
    List.Perm (aggGst c10t) c10t :=
  c10_aggregation_permutes c10t (by with_unfolding_all decide)

/-- C10: counterexample.  `c10t` already has one row per key, but the
aggregation step returns its rows re-sorted into ascending key order
(pandas `groupby(sort=True)`), so the result is not the same table. -/
theorem c10_aggregation_reorders :
    (c10t.map keyOfG).Nodup ∧ aggGst c10t ≠ c10t := by
  with_unfolding_all decide

end Reco
